import Mathlib

/-!
Verification of the chat front-end in `bot.py` (single-file Streamlit app).

The embedding models, faithfully to the Python source:
- the fixed configuration tables `model_options` and `response_options`;
- the startup credential check on `GROQ_API_KEY`;
- `get_completion` in both non-streaming and streaming mode, with the
  `try/except` that stringifies failures (non-streaming) or displays an
  error and returns `None` (streaming);
- the chat-form submit handler (blank-input guard, user-turn append,
  context-window construction `[system] + history[-5:]`, streaming
  aggregation loop, unconditional assistant-turn append);
- the Clear Chat button.

The external Groq backend is modelled as a behaviour value: either the
`create` call raises before streaming, or it yields a finite list of
chunks (each chunk carrying an optional delta-content string, `none`
standing for Python `None`) and then optionally raises mid-stream.
Temperature and top_p literals (0.6 etc.) are embedded as rationals,
since the program only looks them up and passes them through; no
floating-point arithmetic is performed on them.
-/

/-- One conversation message: a dict `{"role": ..., "content": ...}` in the source. -/
structure Turn where
  role : String
  content : String
deriving DecidableEq, Repr

/-- The fixed system turn prepended at bot.py line 167. -/
def systemTurn : Turn := ⟨"system", "You are a helpful assistant."⟩

/-- bot.py lines 17-20: display name → API identifier, as an ordered association list. -/
def model_options : List (String × String) :=
  [("Llama3.3-70B-Versatile", "llama-3.3-70b-versatile"),
   ("DeepSeek-V2-70B", "deepseek-r1-distill-llama-70b")]

/-- bot.py line 23: the default display name. -/
def default_model_name : String := "Llama3.3-70B-Versatile"

/-- Dict lookup `model_options[name]` (bot.py lines 24 and 142); `none` models `KeyError`. -/
def lookupModel (display : String) : Option String :=
  (model_options.find? (fun p => p.1 == display)).map Prod.snd

/-- A named sampling-parameter preset (one row of `response_options`). -/
structure Profile where
  max_tokens : Nat
  temperature : ℚ
  top_p : ℚ
deriving DecidableEq, Repr

/-- bot.py lines 27-31: the fixed response-length table; `none` models `KeyError`. -/
def response_options : String → Option Profile
  | "Short" => some ⟨256, 6/10, 6/10⟩
  | "Balanced" => some ⟨1024, 7/10, 7/10⟩
  | "Long" => some ⟨2048, 8/10, 8/10⟩
  | _ => none

/-- bot.py lines 11-13: `os.getenv` result is `none` when unset; Python's
`if not GROQ_API_KEY` also treats the empty string as missing. On failure the
raised `ValueError` message names the variable. -/
def startup (groq_api_key : Option String) : Except String Unit :=
  match groq_api_key with
  | none => .error "GROQ_API_KEY not found in environment variables"
  | some s =>
    if s.isEmpty then .error "GROQ_API_KEY not found in environment variables"
    else .ok ()

/-- One streaming chunk; `delta` is `chunk.choices[0].delta.content`,
with `none` for Python `None`. -/
structure Chunk where
  delta : Option String
deriving DecidableEq, Repr

/-- Behaviour of the external backend for one streaming `create` call:
either the call raises before any chunk is produced, or it yields the
listed chunks in order and then optionally raises mid-stream. -/
inductive StreamBehavior where
  | failCreate (msg : String)
  | chunks (cs : List Chunk) (midFail : Option String)
deriving DecidableEq, Repr

/-- `get_completion` with `stream=False` (bot.py lines 50-69): a success
returns `completion.choices[0].message.content`; any exception is caught and
stringified as `"An error occurred: " ++ e`, never re-raised. -/
def get_completion_nostream (backend : Except String String) : String :=
  match backend with
  | .ok content => content
  | .error e => "An error occurred: " ++ e

/-- Result of `get_completion` with `stream=True` (bot.py lines 50-69):
on success the chunk stream is returned; on an exception `st.error` is shown
and `None` is returned. -/
structure StreamCallResult where
  response : Option (List Chunk × Option String)
  errorDisplayed : Option String
deriving DecidableEq, Repr

/-- `get_completion` with `stream=True` (bot.py lines 50-69). -/
def get_completion_stream (backend : StreamBehavior) : StreamCallResult :=
  match backend with
  | .failCreate msg => ⟨none, some ("Error during streaming: " ++ msg)⟩
  | .chunks cs mf => ⟨some (cs, mf), none⟩

/-- The whitespace set of Python `str.strip()` (ASCII portion, which is all
the source can receive from a text input). -/
def isPySpace (c : Char) : Bool :=
  c == ' ' || c == '\t' || c == '\n' || c == '\r' || c == '\x0b' || c == '\x0c'

/-- Python `s.strip()`. -/
def pyStrip (s : String) : String :=
  String.mk (((s.toList.dropWhile isPySpace).reverse.dropWhile isPySpace).reverse)

/-- Python `H[-n:]` for positive `n` (the source uses the literal 5): the
last `min n H.length` elements, in order. -/
def lastN (n : Nat) (l : List Turn) : List Turn :=
  l.drop (l.length - n)

/-- The context window (bot.py lines 166-169): one fixed system turn followed
by the last `min n H.length` turns of the history, chronological order. The
source instantiates `n = 5`. -/
def window (n : Nat) (H : List Turn) : List Turn :=
  systemTurn :: lastN n H

/-- The streaming aggregation loop (bot.py lines 190-193): each chunk whose
delta content is truthy (present and non-empty) is concatenated onto the
accumulator in arrival order. -/
def aggregate (cs : List Chunk) : String :=
  cs.foldl
    (fun acc c =>
      match c.delta with
      | some s => if s.isEmpty then acc else acc ++ s
      | none => acc)
    ""

/-- Plain concatenation of all delta contents of a chunk list: the full
response text that a deterministic backend chunked up. -/
def deltaConcat : List Chunk → String
  | [] => ""
  | c :: cs => (match c.delta with | some s => s | none => "") ++ deltaConcat cs

/-- The arguments carried by one `client.chat.completions.create` call
(bot.py lines 51-59). -/
structure CallRecord where
  messages : List Turn
  model : String
  temperature : ℚ
  top_p : ℚ
  max_tokens : Nat
  stream : Bool
deriving DecidableEq, Repr

/-- Outcome of one run of the submit handler. `call` records the completion
call made, if any; `errorDisplayed` the `st.error` text, if shown; `crashed`
the uncaught exception that aborted the script run, if one occurred. -/
structure SubmitResult where
  history : List Turn
  call : Option CallRecord
  errorDisplayed : Option String
  crashed : Option String
deriving DecidableEq, Repr

/-- The chat-form submit handler (bot.py lines 158-201), given the current
history, the raw input, the already-looked-up model identifier (line 142),
the selected response-length name, and the backend behaviour.

- line 162: blank (whitespace-only) input short-circuits: nothing happens;
- line 163: the raw input is appended as a user turn;
- line 172: `response_options[selected_option]`; a missing key would raise
  `KeyError` after the user turn was appended;
- lines 175-182: the streaming completion call with the window and params;
- lines 189-196: if `get_completion` returned `None` the loop is skipped;
  otherwise chunks are aggregated; an exception raised by the stream
  iterator mid-loop propagates uncaught, aborting the run;
- line 199: the assistant turn is appended unconditionally (empty content
  when there were no fragments). -/
def processSubmit (history : List Turn) (user_input : String)
    (model_name : String) (selected_option : String)
    (backend : StreamBehavior) : SubmitResult :=
  if (pyStrip user_input).isEmpty then
    ⟨history, none, none, none⟩
  else
    let h1 := history ++ [⟨"user", user_input⟩]
    match response_options selected_option with
    | none => ⟨h1, none, none, some "KeyError"⟩
    | some params =>
      let messages := window 5 h1
      let call : CallRecord :=
        ⟨messages, model_name, params.temperature, params.top_p,
         params.max_tokens, true⟩
      match get_completion_stream backend with
      | ⟨none, err⟩ =>
        ⟨h1 ++ [⟨"assistant", ""⟩], some call, err, none⟩
      | ⟨some (cs, midFail), _⟩ =>
        match midFail with
        | some e => ⟨h1, some call, none, some e⟩
        | none => ⟨h1 ++ [⟨"assistant", aggregate cs⟩], some call, none, none⟩

/-- The Clear Chat button (bot.py lines 152-154): resets the history to empty. -/
def clearHistory (_h : List Turn) : List Turn := []

/-- A submission run that did not abort with an uncaught exception. -/
def completedNormally (r : SubmitResult) : Prop := r.crashed = none

/-- Histories reachable from startup by clears and submissions whose script
run completed without an uncaught exception. -/
inductive Reachable : List Turn → Prop
  | init : Reachable []
  | clear (h : List Turn) : Reachable h → Reachable (clearHistory h)
  | submit (h : List Turn) (s mname oname : String) (b : StreamBehavior) :
      Reachable h →
      completedNormally (processSubmit h s mname oname b) →
      Reachable (processSubmit h s mname oname b).history

/-- Role alternation check: when the flag is `true` the next turn must be a
user turn, then an assistant turn, and so on. -/
def altFrom : Bool → List Turn → Bool
  | _, [] => true
  | true, t :: ts => t.role == "user" && altFrom false ts
  | false, t :: ts => t.role == "assistant" && altFrom true ts

/-! ## Helper lemmas -/

theorem processSubmit_blank (h : List Turn) (s mname oname : String)
    (b : StreamBehavior) (hs : (pyStrip s).isEmpty = true) :
    processSubmit h s mname oname b = ⟨h, none, none, none⟩ := by
  simp [processSubmit, hs]

theorem processSubmit_call_eq (h : List Turn) (s mname oname : String)
    (b : StreamBehavior) (p : Profile) (hs : (pyStrip s).isEmpty = false)
    (hp : response_options oname = some p) :
    (processSubmit h s mname oname b).call =
      some ⟨window 5 (h ++ [⟨"user", s⟩]), mname, p.temperature, p.top_p,
            p.max_tokens, true⟩ := by
  cases b with
  | failCreate msg => simp [processSubmit, hs, hp, get_completion_stream]
  | chunks cs mf => cases mf <;> simp [processSubmit, hs, hp, get_completion_stream]

theorem processSubmit_failCreate (h : List Turn) (s mname oname msg : String)
    (p : Profile) (hs : (pyStrip s).isEmpty = false)
    (hp : response_options oname = some p) :
    processSubmit h s mname oname (.failCreate msg) =
      ⟨h ++ [⟨"user", s⟩, ⟨"assistant", ""⟩],
       some ⟨window 5 (h ++ [⟨"user", s⟩]), mname, p.temperature, p.top_p,
             p.max_tokens, true⟩,
       some ("Error during streaming: " ++ msg), none⟩ := by
  simp [processSubmit, hs, hp, get_completion_stream]

theorem processSubmit_chunks_ok (h : List Turn) (s mname oname : String)
    (cs : List Chunk) (p : Profile) (hs : (pyStrip s).isEmpty = false)
    (hp : response_options oname = some p) :
    processSubmit h s mname oname (.chunks cs none) =
      ⟨h ++ [⟨"user", s⟩, ⟨"assistant", aggregate cs⟩],
       some ⟨window 5 (h ++ [⟨"user", s⟩]), mname, p.temperature, p.top_p,
             p.max_tokens, true⟩,
       none, none⟩ := by
  simp [processSubmit, hs, hp, get_completion_stream]

theorem processSubmit_midFail (h : List Turn) (s mname oname e : String)
    (cs : List Chunk) (p : Profile) (hs : (pyStrip s).isEmpty = false)
    (hp : response_options oname = some p) :
    processSubmit h s mname oname (.chunks cs (some e)) =
      ⟨h ++ [⟨"user", s⟩],
       some ⟨window 5 (h ++ [⟨"user", s⟩]), mname, p.temperature, p.top_p,
             p.max_tokens, true⟩,
       none, some e⟩ := by
  simp [processSubmit, hs, hp, get_completion_stream]

theorem aggregate_go (cs : List Chunk) : ∀ acc : String,
    cs.foldl
      (fun acc c =>
        match c.delta with
        | some s => if s.isEmpty then acc else acc ++ s
        | none => acc)
      acc = acc ++ deltaConcat cs := by
  induction cs with
  | nil => intro acc; simp [deltaConcat]
  | cons c cs ih =>
    intro acc
    cases hd : c.delta with
    | none => simp [hd, deltaConcat, ih, String.empty_append]
    | some s =>
      by_cases he : s.isEmpty
      · have hse : s = "" := (String.isEmpty_iff s).mp he
        simp [hd, deltaConcat, ih, he, hse, String.empty_append]
      · simp [hd, deltaConcat, ih, he, String.append_assoc]

theorem aggregate_eq_deltaConcat (cs : List Chunk) :
    aggregate cs = deltaConcat cs := by
  have h := aggregate_go cs ""
  simpa [aggregate, String.empty_append] using h

theorem altFrom_append (xs ys : List Turn) : ∀ b : Bool,
    altFrom b (xs ++ ys)
      = (altFrom b xs && altFrom (if xs.length % 2 = 0 then b else !b) ys) := by
  induction xs with
  | nil => intro b; simp [altFrom]
  | cons t ts ih =>
    intro b
    by_cases hm : ts.length % 2 = 0
    · have hm2 : ¬(ts.length + 1) % 2 = 0 := by omega
      cases b <;> simp [altFrom, ih, hm, hm2, Bool.and_assoc]
    · have hm2 : (ts.length + 1) % 2 = 0 := by omega
      cases b <;> simp [altFrom, ih, hm, hm2, Bool.and_assoc]

theorem altFrom_append_pair (h : List Turn) (c d : String)
    (hlen : h.length % 2 = 0) (halt : altFrom true h = true) :
    altFrom true (h ++ [⟨"user", c⟩, ⟨"assistant", d⟩]) = true := by
  rw [altFrom_append h _ true]
  simp [hlen, halt, altFrom]

theorem altFrom_roles (H : List Turn) : ∀ b : Bool, altFrom b H = true →
    ∀ t ∈ H, t.role = "user" ∨ t.role = "assistant" := by
  induction H with
  | nil => intro b _ t ht; cases ht
  | cons x xs ih =>
    intro b hb t ht
    cases b with
    | true =>
      simp [altFrom] at hb
      rcases List.mem_cons.mp ht with rfl | ht
      · exact Or.inl hb.1
      · exact ih false hb.2 t ht
    | false =>
      simp [altFrom] at hb
      rcases List.mem_cons.mp ht with rfl | ht
      · exact Or.inr hb.1
      · exact ih true hb.2 t ht

theorem reachable_invariant (H : List Turn) (hr : Reachable H) :
    altFrom true H = true ∧ H.length % 2 = 0 := by
  induction hr with
  | init => simp [altFrom]
  | clear h _ _ => simp [clearHistory, altFrom]
  | submit h s mname oname b _ hc ih =>
    by_cases hs : (pyStrip s).isEmpty = true
    · rw [processSubmit_blank h s mname oname b hs]
      exact ih
    · have hs' : (pyStrip s).isEmpty = false := by
        cases hval : (pyStrip s).isEmpty
        · rfl
        · exact absurd hval hs
      cases hp : response_options oname with
      | none =>
        exfalso
        simp [completedNormally, processSubmit, hs', hp] at hc
      | some p =>
        cases b with
        | failCreate msg =>
          rw [processSubmit_failCreate h s mname oname msg p hs' hp]
          refine ⟨altFrom_append_pair h s "" ih.2 ih.1, ?_⟩
          simp; omega
        | chunks cs mf =>
          cases mf with
          | some e =>
            exfalso
            rw [processSubmit_midFail h s mname oname e cs p hs' hp] at hc
            simp [completedNormally] at hc
          | none =>
            rw [processSubmit_chunks_ok h s mname oname cs p hs' hp]
            refine ⟨altFrom_append_pair h s (aggregate cs) ih.2 ih.1, ?_⟩
            simp; omega

/-! ## Claim theorems -/

/-- C1: for every window size `n` and history `H`, `window n H` is exactly one
fixed system turn followed by the last `min n H.length` turns of `H` in
chronological order, hence `min n H.length + 1` turns in total (the source
instantiates `n = 5`); and the message list the submit handler passes to the
completion call is exactly `window 5` of the history at call time (the stored
history after the user-turn append), the window being a pure projection that
leaves the history itself unchanged. -/
theorem C1_window_shape (n : Nat) (H h : List Turn) (s mname oname : String)
    (b : StreamBehavior) (p : Profile)
    (hs : (pyStrip s).isEmpty = false) (hp : response_options oname = some p) :
    (window n H).length = min n H.length + 1 ∧
    window n H = systemTurn :: H.drop (H.length - n) ∧
    (H.drop (H.length - n)).length = min n H.length ∧
    H.take (H.length - n) ++ H.drop (H.length - n) = H ∧
    ((processSubmit h s mname oname b).call).map CallRecord.messages
      = some (window 5 (h ++ [⟨"user", s⟩])) := by
  refine ⟨?_, rfl, ?_, List.take_append_drop _ _, ?_⟩
  · simp [window, lastN]
    omega
  · simp
    omega
  · rw [processSubmit_call_eq h s mname oname b p hs hp]
    rfl

/-- C1 witness at concrete inputs. -/
theorem C1_window_shape_witness :
    ((processSubmit [] "hi" "llama-3.3-70b-versatile" "Short"
        (.chunks [] none)).call).map CallRecord.messages
      = some (window 5 [⟨"user", "hi"⟩]) :=
  (C1_window_shape 3 [⟨"user", "a"⟩] [] "hi" "llama-3.3-70b-versatile" "Short"
    (.chunks [] none) ⟨256, 6/10, 6/10⟩ (by decide) rfl).2.2.2.2

/-- C4: for `stream=False`, a backend failure is swallowed and converted to
the string `"An error occurred: " ++ e` returned in place of the text (the
function is total, nothing is raised to the caller), and a success returns
the full generated text `completion.choices[0].message.content`. -/
theorem C4_nostream_error_string :
    (∀ e, get_completion_nostream (.error e) = "An error occurred: " ++ e) ∧
    (∀ t, get_completion_nostream (.ok t) = t) :=
  ⟨fun _ => rfl, fun _ => rfl⟩

/-- C5: the fixed profile table maps Short to (256, 0.6, 0.6), Balanced to
(1024, 0.7, 0.7) and Long to (2048, 0.8, 0.8) exactly, and every completion
call made by the submit handler carries exactly the looked-up profile's
max_tokens, temperature and top_p; selection is a pure lookup. -/
theorem C5_profile_params (h : List Turn) (s mname oname : String)
    (b : StreamBehavior) (p : Profile) (hs : (pyStrip s).isEmpty = false)
    (hp : response_options oname = some p) :
    response_options "Short" = some ⟨256, 6/10, 6/10⟩ ∧
    response_options "Balanced" = some ⟨1024, 7/10, 7/10⟩ ∧
    response_options "Long" = some ⟨2048, 8/10, 8/10⟩ ∧
    ((processSubmit h s mname oname b).call).map
        (fun c => (c.max_tokens, c.temperature, c.top_p))
      = some (p.max_tokens, p.temperature, p.top_p) := by
  refine ⟨rfl, rfl, rfl, ?_⟩
  rw [processSubmit_call_eq h s mname oname b p hs hp]
  rfl

/-- C5 witness at concrete inputs. -/
theorem C5_profile_params_witness :
    response_options "Short" = some ⟨256, 6/10, 6/10⟩ ∧
    response_options "Balanced" = some ⟨1024, 7/10, 7/10⟩ ∧
    response_options "Long" = some ⟨2048, 8/10, 8/10⟩ ∧
    ((processSubmit [] "hello" "llama-3.3-70b-versatile" "Long"
        (.chunks [⟨some "x"⟩] none)).call).map
        (fun c => (c.max_tokens, c.temperature, c.top_p))
      = some ((2048 : Nat), (8/10 : ℚ), (8/10 : ℚ)) :=
  C5_profile_params [] "hello" "llama-3.3-70b-versatile" "Long"
    (.chunks [⟨some "x"⟩] none) ⟨2048, 8/10, 8/10⟩ (by decide) rfl

/-- C6: a submission whose input strips to the empty string leaves the
history unchanged, appends no user turn, and makes no completion call. -/
theorem C6_blank_input_noop (h : List Turn) (s mname oname : String)
    (b : StreamBehavior) (hs : (pyStrip s).isEmpty = true) :
    (processSubmit h s mname oname b).history = h ∧
    (processSubmit h s mname oname b).call = none := by
  rw [processSubmit_blank h s mname oname b hs]
  exact ⟨rfl, rfl⟩

/-- C6 witness at concrete inputs. -/
theorem C6_blank_input_noop_witness :
    (processSubmit [⟨"user", "a"⟩, ⟨"assistant", "b"⟩] "  \t\n " "m" "Short"
        (.chunks [⟨some "x"⟩] none)).history
      = [⟨"user", "a"⟩, ⟨"assistant", "b"⟩] ∧
    (processSubmit [⟨"user", "a"⟩, ⟨"assistant", "b"⟩] "  \t\n " "m" "Short"
        (.chunks [⟨some "x"⟩] none)).call = none :=
  C6_blank_input_noop [⟨"user", "a"⟩, ⟨"assistant", "b"⟩] "  \t\n " "m" "Short"
    (.chunks [⟨some "x"⟩] none) (by decide)

/-- C7: a missing `GROQ_API_KEY` (unset, or set but empty, which Python's
`if not GROQ_API_KEY` treats the same) makes startup raise before any request
can be served, with a diagnostic naming the variable; a present (non-empty)
credential passes the check. -/
theorem C7_startup_credential (s : String) (hs : s.isEmpty = false) :
    startup none = .error "GROQ_API_KEY not found in environment variables" ∧
    startup (some "") = .error "GROQ_API_KEY not found in environment variables" ∧
    startup (some s) = .ok () ∧
    ("GROQ_API_KEY".toList).isPrefixOf
      ("GROQ_API_KEY not found in environment variables".toList) = true := by
  refine ⟨rfl, rfl, ?_, by decide⟩
  simp [startup, hs]

/-- C7 witness at concrete inputs. -/
theorem C7_startup_credential_witness :
    startup none = .error "GROQ_API_KEY not found in environment variables" ∧
    startup (some "") = .error "GROQ_API_KEY not found in environment variables" ∧
    startup (some "gsk-abc123") = .ok () ∧
    ("GROQ_API_KEY".toList).isPrefixOf
      ("GROQ_API_KEY not found in environment variables".toList) = true :=
  C7_startup_credential "gsk-abc123" (by decide)

/-- C8: clearing resets the history to the empty sequence, clearing twice
equals clearing once (idempotence), and for every `n` the window computed
right after a clear is exactly the single fixed system turn. -/
theorem C8_clear_idempotent (h : List Turn) (n : Nat) :
    clearHistory h = [] ∧
    clearHistory (clearHistory h) = clearHistory h ∧
    window n (clearHistory h) = [systemTurn] := by
  refine ⟨rfl, rfl, ?_⟩
  simp [clearHistory, window, lastN]

/-- The fixed allow-list of API model identifiers (the values of
`model_options`). -/
def allowList : List String :=
  ["llama-3.3-70b-versatile", "deepseek-r1-distill-llama-70b"]

/-- C2 counterexample: with empty history, input "hi" and a backend that
raises before streaming, the handler yields zero fragments and displays the
error, yet it still appends an assistant turn (empty content) to the history
at bot.py line 199 — refuting "no assistant turn is appended". -/
theorem C2_counterexample :
    (processSubmit [] "hi" "llama-3.3-70b-versatile" "Balanced"
        (.failCreate "boom")).history
      = [⟨"user", "hi"⟩, ⟨"assistant", ""⟩] ∧
    ((processSubmit [] "hi" "llama-3.3-70b-versatile" "Balanced"
        (.failCreate "boom")).history.filter
        (fun t => t.role == "assistant")).length = 1 := by
  decide

/-- C2 amended: on a failure before streaming, `get_completion` yields no
fragment stream, signals out-of-band (an `st.error` display plus a `None`
return, neither of which is a text fragment), and the handler appends zero
fragments — but it still appends an assistant turn with empty-string content
to the history; on a failure during streaming the exception propagates
uncaught out of the fragment loop, the run aborts, and no assistant turn is
appended. -/
theorem C2_stream_failure (h : List Turn) (s mname oname msg : String)
    (cs : List Chunk) (p : Profile)
    (hs : (pyStrip s).isEmpty = false) (hp : response_options oname = some p) :
    (get_completion_stream (.failCreate msg)).response = none ∧
    (get_completion_stream (.failCreate msg)).errorDisplayed
      = some ("Error during streaming: " ++ msg) ∧
    (processSubmit h s mname oname (.failCreate msg)).history
      = h ++ [⟨"user", s⟩, ⟨"assistant", ""⟩] ∧
    (processSubmit h s mname oname (.chunks cs (some msg))).history
      = h ++ [⟨"user", s⟩] ∧
    (processSubmit h s mname oname (.chunks cs (some msg))).crashed
      = some msg := by
  refine ⟨rfl, rfl, ?_, ?_, ?_⟩
  · rw [processSubmit_failCreate h s mname oname msg p hs hp]
  · rw [processSubmit_midFail h s mname oname msg cs p hs hp]
  · rw [processSubmit_midFail h s mname oname msg cs p hs hp]

/-- C2 witness at concrete inputs. -/
theorem C2_stream_failure_witness :
    (get_completion_stream (.failCreate "timeout")).response = none ∧
    (get_completion_stream (.failCreate "timeout")).errorDisplayed
      = some ("Error during streaming: " ++ "timeout") ∧
    (processSubmit [] "hey" "deepseek-r1-distill-llama-70b" "Short"
        (.failCreate "timeout")).history
      = [] ++ [⟨"user", "hey"⟩, ⟨"assistant", ""⟩] ∧
    (processSubmit [] "hey" "deepseek-r1-distill-llama-70b" "Short"
        (.chunks [⟨some "pa"⟩] (some "timeout"))).history
      = [] ++ [⟨"user", "hey"⟩] ∧
    (processSubmit [] "hey" "deepseek-r1-distill-llama-70b" "Short"
        (.chunks [⟨some "pa"⟩] (some "timeout"))).crashed = some "timeout" :=
  C2_stream_failure [] "hey" "deepseek-r1-distill-llama-70b" "Short" "timeout"
    [⟨some "pa"⟩] ⟨256, 6/10, 6/10⟩ (by decide) rfl

/-- C3: against a deterministic stub backend whose chunk deltas concatenate
to `T` — the text the equivalent non-streaming call returns — the handler's
in-order aggregation of the truthy delta fragments produces exactly `T`
(absent and empty deltas contribute nothing), and the assistant turn appended
after a successful stream carries exactly `T`. -/
theorem C3_stream_concat_eq_nostream (cs : List Chunk) (T : String)
    (h : List Turn) (s mname oname : String) (p : Profile)
    (hdet : deltaConcat cs = T)
    (hs : (pyStrip s).isEmpty = false) (hp : response_options oname = some p) :
    aggregate cs = get_completion_nostream (.ok T) ∧
    (processSubmit h s mname oname (.chunks cs none)).history
      = h ++ [⟨"user", s⟩, ⟨"assistant", T⟩] := by
  have hagg : aggregate cs = T := (aggregate_eq_deltaConcat cs).trans hdet
  refine ⟨hagg, ?_⟩
  rw [processSubmit_chunks_ok h s mname oname cs p hs hp, hagg]

/-- C3 witness at concrete inputs: the text "Hello, world!" chunked into
fragments with an interleaved absent delta and an empty delta. -/
theorem C3_stream_concat_eq_nostream_witness :
    aggregate [⟨some "Hel"⟩, ⟨none⟩, ⟨some "lo, "⟩, ⟨some ""⟩, ⟨some "world!"⟩]
      = get_completion_nostream (.ok "Hello, world!") ∧
    (processSubmit [] "greet" "llama-3.3-70b-versatile" "Balanced"
        (.chunks [⟨some "Hel"⟩, ⟨none⟩, ⟨some "lo, "⟩, ⟨some ""⟩,
                  ⟨some "world!"⟩] none)).history
      = [] ++ [⟨"user", "greet"⟩, ⟨"assistant", "Hello, world!"⟩] :=
  C3_stream_concat_eq_nostream
    [⟨some "Hel"⟩, ⟨none⟩, ⟨some "lo, "⟩, ⟨some ""⟩, ⟨some "world!"⟩]
    "Hello, world!" [] "greet" "llama-3.3-70b-versatile" "Balanced"
    ⟨1024, 7/10, 7/10⟩ (by decide) (by decide) rfl

/-- C9: every identifier obtainable from the display-name table lies in the
fixed two-element allow-list; the startup default display name maps to
"llama-3.3-70b-versatile"; and the completion call carries exactly the
looked-up identifier — selection reads the fixed table, never alters it. -/
theorem C9_model_allowlist (d m : String) (h : List Turn) (s oname : String)
    (b : StreamBehavior) (p : Profile)
    (hd : lookupModel d = some m)
    (hs : (pyStrip s).isEmpty = false) (hp : response_options oname = some p) :
    m ∈ allowList ∧
    lookupModel default_model_name = some "llama-3.3-70b-versatile" ∧
    ((processSubmit h s m oname b).call).map CallRecord.model = some m := by
  refine ⟨?_, rfl, ?_⟩
  · simp only [lookupModel, model_options, List.find?] at hd
    by_cases h1 : ("Llama3.3-70B-Versatile" == d) = true
    · simp [h1] at hd
      simp [allowList, ← hd]
    · by_cases h2 : ("DeepSeek-V2-70B" == d) = true
      · simp [h1, h2] at hd
        simp [allowList, ← hd]
      · simp [h1, h2] at hd
  · rw [processSubmit_call_eq h s m oname b p hs hp]
    rfl

/-- C9 witness at concrete inputs. -/
theorem C9_model_allowlist_witness :
    "deepseek-r1-distill-llama-70b" ∈ allowList ∧
    lookupModel default_model_name = some "llama-3.3-70b-versatile" ∧
    ((processSubmit [] "yo" "deepseek-r1-distill-llama-70b" "Short"
        (.chunks [] none)).call).map CallRecord.model
      = some "deepseek-r1-distill-llama-70b" :=
  C9_model_allowlist "DeepSeek-V2-70B" "deepseek-r1-distill-llama-70b" [] "yo"
    "Short" (.chunks [] none) ⟨256, 6/10, 6/10⟩ rfl (by decide) rfl

/-- C10 counterexample: an exception raised by the stream iterator mid-loop
propagates uncaught (the `for` at bot.py line 190 is outside any `try`), so
the run aborts before the append at line 199: this non-blank submission
appends only the user turn, not two turns. -/
theorem C10_counterexample :
    (processSubmit [] "hi" "llama-3.3-70b-versatile" "Long"
        (.chunks [⟨some "par"⟩] (some "conn reset"))).history
      = [⟨"user", "hi"⟩] ∧
    ¬(processSubmit [] "hi" "llama-3.3-70b-versatile" "Long"
        (.chunks [⟨some "par"⟩] (some "conn reset"))).history.length = 2 := by
  decide

/-- C10 amended: every submission of non-blank input whose script run
completes without an uncaught exception appends exactly two turns — first a
user turn carrying the raw input, then an assistant turn — including when
`get_completion` returns `None`, in which case the assistant turn has
empty-string content, indistinguishable from a genuinely empty response;
consequently every history reachable through completed submissions and
clears contains only roles "user" and "assistant", strictly alternating
starting with "user". -/
theorem C10_submission_appends_pair (h : List Turn) (s mname oname msg : String)
    (b : StreamBehavior) (p : Profile)
    (hs : (pyStrip s).isEmpty = false) (hp : response_options oname = some p)
    (hc : completedNormally (processSubmit h s mname oname b)) :
    (∃ a, (processSubmit h s mname oname b).history
        = h ++ [⟨"user", s⟩, ⟨"assistant", a⟩]) ∧
    (processSubmit h s mname oname (.failCreate msg)).history
      = h ++ [⟨"user", s⟩, ⟨"assistant", ""⟩] ∧
    (∀ H, Reachable H → altFrom true H = true) ∧
    (∀ H, Reachable H → ∀ t ∈ H, t.role = "user" ∨ t.role = "assistant") := by
  refine ⟨?_, ?_, ?_, ?_⟩
  · cases b with
    | failCreate m0 =>
      exact ⟨"", by rw [processSubmit_failCreate h s mname oname m0 p hs hp]⟩
    | chunks cs mf =>
      cases mf with
      | some e =>
        exfalso
        rw [processSubmit_midFail h s mname oname e cs p hs hp] at hc
        simp [completedNormally] at hc
      | none =>
        exact ⟨aggregate cs,
          by rw [processSubmit_chunks_ok h s mname oname cs p hs hp]⟩
  · rw [processSubmit_failCreate h s mname oname msg p hs hp]
  · intro H hr
    exact (reachable_invariant H hr).1
  · intro H hr
    exact altFrom_roles H true (reachable_invariant H hr).1

/-- C10 witness at concrete inputs. -/
theorem C10_submission_appends_pair_witness :
    (∃ a, (processSubmit [] "ping" "llama-3.3-70b-versatile" "Balanced"
        (.chunks [⟨some "pong"⟩] none)).history
        = [] ++ [⟨"user", "ping"⟩, ⟨"assistant", a⟩]) ∧
    (processSubmit [] "ping" "llama-3.3-70b-versatile" "Balanced"
        (.failCreate "down")).history
      = [] ++ [⟨"user", "ping"⟩, ⟨"assistant", ""⟩] ∧
    (∀ H, Reachable H → altFrom true H = true) ∧
    (∀ H, Reachable H → ∀ t ∈ H, t.role = "user" ∨ t.role = "assistant") :=
  C10_submission_appends_pair [] "ping" "llama-3.3-70b-versatile" "Balanced"
    "down" (.chunks [⟨some "pong"⟩] none) ⟨1024, 7/10, 7/10⟩ (by decide) rfl rfl
